import Mathlib

/-!
Shallow embedding of the canvas subsystem of the context-pilot plugin:
the node/edge manager (src/canvas/canvas-node-manager.ts), the error
taxonomy (src/canvas/canvas-errors.ts) and the runtime type guards
(src/types/canvas-guards.ts).  Host primitives (the Obsidian canvas
surface) are modelled by explicit behaviour records, and observable
side effects (host API calls, console output, user notices) by effect
traces.  Numbers are modelled as integers; JavaScript exceptions are
modelled with Except, where the error component carries the effects
performed before the throw.
-/

namespace ContextPilot

/-- Connector anchor side of a canvas edge (canvas-node-manager.ts,
determineEdgeSides). -/
inductive Side where
  | top
  | right
  | bottom
  | left
deriving DecidableEq, Repr

/-- Canvas node as read by the node manager: identity plus position and
size fields. -/
structure CanvasNode where
  id : String
  x : Int
  y : Int
  width : Int
  height : Int
deriving DecidableEq, Repr

/-- Embedding of CanvasNodeManager.determineEdgeSides: picks the anchor
pair from the dominant axis between the two node origins, with dx and dy
measured from fromNode to toNode and magnitudes compared via absolute
value. -/
def determineEdgeSides (fromNode toNode : CanvasNode) : Side × Side :=
  let dx := toNode.x - fromNode.x
  let dy := toNode.y - fromNode.y
  if dx.natAbs > dy.natAbs then
    if dx > 0 then (Side.right, Side.left) else (Side.left, Side.right)
  else
    if dy > 0 then (Side.bottom, Side.top) else (Side.top, Side.bottom)

/-- Result position of CanvasNodeManager.calculateNodePosition. -/
structure Position where
  x : Int
  y : Int
deriving DecidableEq, Repr

/-- Embedding of CanvasNodeManager.calculateNodePosition. -/
def calculateNodePosition (triggerNode : CanvasNode) (offsetX offsetY : Int) : Position :=
  { x := triggerNode.x + offsetX
  , y := triggerNode.y + triggerNode.height + offsetY }

/-- JavaScript field value as far as the type guards inspect it: a
string, an object carrying a string path field, some other object, or
any other value.  A field that is absent (undefined) is modelled by
Option.none at the use site. -/
inductive JsField where
  | str (s : String)
  | objWithPath (path : String)
  | objOther
  | otherVal
deriving DecidableEq, Repr

/-- Raw canvas node record as inspected by the guards of
canvas-guards.ts: an optional type discriminator plus the three optional
content fields. -/
structure RawNode where
  type : Option String
  text : Option JsField
  file : Option JsField
  url : Option JsField
deriving DecidableEq, Repr

/-- JavaScript truthiness test used on the optional type discriminator:
an absent field and the empty string are both falsy. -/
def typeFalsy (t : Option String) : Bool :=
  match t with
  | none => true
  | some s => s == ""

/-- Test whether an optional field holds a string (typeof x === string). -/
def isStringField (v : Option JsField) : Bool :=
  match v with
  | some (JsField.str _) => true
  | _ => false

/-- Test whether an optional field holds a truthy object with a string
path field. -/
def isObjWithPathField (v : Option JsField) : Bool :=
  match v with
  | some (JsField.objWithPath _) => true
  | _ => false

/-- Embedding of isTextNode from canvas-guards.ts. -/
def isTextNode (node : RawNode) : Bool :=
  node.type == some "text" || (typeFalsy node.type && isStringField node.text)

/-- Embedding of isFileNode from canvas-guards.ts. -/
def isFileNode (node : RawNode) : Bool :=
  if node.type == some "file" then true
  else if !typeFalsy node.type then false
  else if isStringField node.file then true
  else if isObjWithPathField node.file then true
  else false

/-- Embedding of isLinkNode from canvas-guards.ts. -/
def isLinkNode (node : RawNode) : Bool :=
  node.type == some "link" || (typeFalsy node.type && isStringField node.url)

/-- Embedding of isGroupNode from canvas-guards.ts. -/
def isGroupNode (node : RawNode) : Bool :=
  if node.type == some "group" then true
  else if !typeFalsy node.type then false
  else node.text == none && node.file == none && node.url == none

/-- Host view with its type tag, as consulted by isCanvasView. -/
structure HostView where
  viewType : String
deriving DecidableEq, Repr

/-- Embedding of isCanvasView from canvas-guards.ts: a view qualifies as
a canvas view when getViewType returns the canvas tag. -/
def isCanvasView (view : HostView) : Bool :=
  view.viewType == "canvas"

/-- Host workspace surface used by getActiveCanvas: the result of
getActiveViewOfType(View), which is a view or null. -/
structure HostWorkspace where
  activeView : Option HostView
deriving DecidableEq, Repr

/-- Embedding of CanvasNodeManager.getActiveCanvas: returns the active
view when it exists and is a canvas view, otherwise null. -/
def getActiveCanvas (ws : HostWorkspace) : Option HostView :=
  match ws.activeView with
  | some v => if isCanvasView v then some v else none
  | none => none

/-- Operation discriminator of NodeOperationError (canvas-errors.ts). -/
inductive NodeOperation where
  | create
  | update
  | connect
deriving DecidableEq, Repr

/-- Stage discriminator of ContextExtractionError (canvas-errors.ts). -/
inductive ExtractionStage where
  | nodeContent
  | connectedNodes
  | contextBuild
deriving DecidableEq, Repr

/-- Instance data of CanvasNotAvailableError: the retryable flag set by
the class field initializer plus the BaseAIError payload. -/
structure CanvasNotAvailableError where
  retryable : Bool
  message : String
  details : Option String
deriving DecidableEq, Repr

/-- Embedding of the CanvasNotAvailableError constructor: the message
parameter defaults when not passed, and the retryable class field is
initialized to false. -/
def mkCanvasNotAvailableError (message : Option String) (details : Option String) :
    CanvasNotAvailableError :=
  { retryable := false
  , message := message.getD "请先打开一个 Canvas 文件"
  , details := details }

/-- Default messages table of the NodeOperationError constructor. -/
def nodeOpDefaultMessage (operation : NodeOperation) : String :=
  match operation with
  | NodeOperation.create => "无法创建节点"
  | NodeOperation.update => "无法更新节点内容"
  | NodeOperation.connect => "无法创建节点连接"

/-- Instance data of NodeOperationError. -/
structure NodeOperationError where
  retryable : Bool
  operation : NodeOperation
  nodeId : Option String
  message : String
  details : Option String
deriving DecidableEq, Repr

/-- Embedding of the NodeOperationError constructor: message falls back
to the defaults table when absent or empty (JavaScript or-else on a
possibly empty string), and the retryable class field is initialized to
true. -/
def mkNodeOperationError (operation : NodeOperation) (message : Option String)
    (nodeId : Option String) (details : Option String) : NodeOperationError :=
  { retryable := true
  , operation := operation
  , nodeId := nodeId
  , message :=
      match message with
      | some m => if m == "" then nodeOpDefaultMessage operation else m
      | none => nodeOpDefaultMessage operation
  , details := details }

/-- Default messages table of the ContextExtractionError constructor. -/
def extractionDefaultMessage (stage : ExtractionStage) : String :=
  match stage with
  | ExtractionStage.nodeContent => "无法提取节点内容"
  | ExtractionStage.connectedNodes => "无法访问连接的节点"
  | ExtractionStage.contextBuild => "无法构建上下文字符串"

/-- Instance data of ContextExtractionError. -/
structure ContextExtractionError where
  retryable : Bool
  stage : ExtractionStage
  nodeId : Option String
  message : String
  details : Option String
deriving DecidableEq, Repr

/-- Embedding of the ContextExtractionError constructor: message falls
back to the defaults table when absent or empty, and the retryable class
field is initialized to false. -/
def mkContextExtractionError (stage : ExtractionStage) (message : Option String)
    (nodeId : Option String) (details : Option String) : ContextExtractionError :=
  { retryable := false
  , stage := stage
  , nodeId := nodeId
  , message :=
      match message with
      | some m => if m == "" then extractionDefaultMessage stage else m
      | none => extractionDefaultMessage stage
  , details := details }

/-- Options object passed to the host canvas createTextNode primitive
(pos, size, text, focus, save). -/
structure NodeCreateOptions where
  posX : Int
  posY : Int
  sizeWidth : Int
  sizeHeight : Int
  text : String
  focus : Bool
  save : Bool
deriving DecidableEq, Repr

/-- Options object built by CanvasNodeManager.createTextNode for the
host primitive, exactly as in the source: given position and size, the
given text, focus disabled and save suppressed. -/
def mkNodeCreateOptions (content : String) (x y width height : Int) : NodeCreateOptions :=
  { posX := x, posY := y, sizeWidth := width, sizeHeight := height
  , text := content, focus := false, save := false }

/-- Node entity returned by the host createTextNode primitive, observed
through the completeness check of the manager: identity plus whether the
entity carries a getData capability (typeof getData is function). -/
structure HostTextNode where
  nodeId : String
  hasGetData : Bool
deriving DecidableEq, Repr

/-- Observable effects of CanvasNodeManager.createTextNode. -/
inductive CreateEff where
  | hostCreateTextNode (opts : NodeCreateOptions)
  | logIncompleteNodeDiagnostic
deriving DecidableEq, Repr

/-- Host canvas behaviour needed by createTextNode: the node-creation
primitive as a function from the options object to the returned node. -/
structure TextNodeCanvas where
  createTextNodeImpl : NodeCreateOptions → HostTextNode

/-- Embedding of CanvasNodeManager.createTextNode: calls the host
primitive with the exact options object, logs a diagnostic when the
returned entity lacks getData, and returns the node unconditionally. -/
def createTextNode (canvas : TextNodeCanvas) (content : String) (x y width height : Int) :
    HostTextNode × List CreateEff :=
  let opts := mkNodeCreateOptions content x y width height
  let node := canvas.createTextNodeImpl opts
  if node.hasGetData then
    (node, [CreateEff.hostCreateTextNode opts])
  else
    (node, [CreateEff.hostCreateTextNode opts, CreateEff.logIncompleteNodeDiagnostic])

/-- Text node state as touched by updateNodeContent: whether the node
carries its own setText capability, and its text field. -/
structure TextNodeState where
  hasSetText : Bool
  text : String
deriving DecidableEq, Repr

/-- Canvas surface as probed by updateNodeContent: whether the canvas
object carries a requestFrame capability (typeof requestFrame is
function).  The declared Canvas interface always provides it; the source
probes defensively. -/
structure UpdateCanvas where
  hasRequestFrame : Bool
deriving DecidableEq, Repr

/-- Observable effects of CanvasNodeManager.updateNodeContent.  The
requestSave constructor models a call to the host persistence primitive;
the source never performs it in this operation. -/
inductive UpdateEff where
  | setTextCall (content : String)
  | directTextAssign (content : String)
  | requestFrame
  | requestSave
deriving DecidableEq, Repr

/-- Embedding of CanvasNodeManager.updateNodeContent: prefers the node
setText capability, falls back to direct field assignment, then triggers
requestFrame when the canvas carries it; never calls requestSave. -/
def updateNodeContent (canvas : UpdateCanvas) (node : TextNodeState) (content : String) :
    TextNodeState × List UpdateEff :=
  let firstEff :=
    if node.hasSetText then UpdateEff.setTextCall content
    else UpdateEff.directTextAssign content
  let node1 : TextNodeState := { node with text := content }
  let frameEffs := if canvas.hasRequestFrame then [UpdateEff.requestFrame] else []
  (node1, firstEff :: frameEffs)

/-- Opaque node record inside the canvas data snapshot: the manager
passes these through unchanged, so only identity of the raw record
matters. -/
structure NodeRecordJson where
  raw : String
deriving DecidableEq, Repr

/-- Edge record synthesized by the fallback splice of createEdge. -/
structure EdgeRecord where
  id : String
  fromNode : String
  fromSide : Side
  toNode : String
  toSide : Side
  label : String
deriving DecidableEq, Repr

/-- Canvas data snapshot returned by the host getData primitive.  The
edges field is optional because the source guards it with an or-else
empty list. -/
structure CanvasData where
  nodes : List NodeRecordJson
  edges : Option (List EdgeRecord)
deriving DecidableEq, Repr

/-- Edge entity returned by the direct host createEdge primitive:
identity, whether it carries a setText capability, and whether calling
that capability throws. -/
structure EdgeObj where
  id : String
  hasSetText : Bool
  setTextThrows : Bool
deriving DecidableEq, Repr

/-- Behaviour of the host canvas primitives touched by createEdge.  A
none createEdgeResult models the direct primitive throwing; the
getDataResult outer none models getData throwing and the inner none a
falsy snapshot; the remaining flags state whether the corresponding
primitive throws when called. -/
structure EdgeCanvas where
  createEdgeResult : Option EdgeObj
  requestSaveThrows : Bool
  getDataResult : Option (Option CanvasData)
  importDataThrows : Bool
  requestFrameThrows : Bool
deriving DecidableEq, Repr

/-- Observable effects of CanvasNodeManager.createEdge.  The
taxonomyErrorReport constructor models construction of a
NodeOperationError from canvas-errors.ts; the source of createEdge never
produces one. -/
inductive EdgeEff where
  | hostCreateEdge (fromId toId : String) (fromSide toSide : Side)
  | edgeSetText (label : String)
  | edgeLabelAssign (label : String)
  | requestSave
  | getData
  | importData (d : CanvasData)
  | requestFrame
  | consoleError
  | consoleLog
  | noticeShown (msg : String)
  | taxonomyErrorReport (operation : NodeOperation)
deriving DecidableEq, Repr

/-- Label-setting step of the direct path: a truthy label is applied via
the edge setText capability when present, else by direct field
assignment; the error component models setText throwing. -/
def labelStepEffs (edge : EdgeObj) (label : Option String) :
    Except (List EdgeEff) (List EdgeEff) :=
  match label with
  | none => Except.ok []
  | some l =>
    if l == "" then Except.ok []
    else if edge.hasSetText then
      if edge.setTextThrows then Except.error [EdgeEff.edgeSetText l]
      else Except.ok [EdgeEff.edgeSetText l]
    else Except.ok [EdgeEff.edgeLabelAssign l]

/-- Direct edge-creation path of createEdge (the body of the outer try):
computes sides, calls the host createEdge primitive, sets the label via
labelStepEffs, then calls requestSave and logs success.  The error
component carries the effects performed before the throw. -/
def directEdgePath (canvas : EdgeCanvas) (fromNode toNode : CanvasNode)
    (label : Option String) : Except (List EdgeEff) (List EdgeEff) :=
  let sides := determineEdgeSides fromNode toNode
  let callEff := EdgeEff.hostCreateEdge fromNode.id toNode.id sides.1 sides.2
  match canvas.createEdgeResult with
  | none => Except.error [callEff]
  | some edge =>
    match labelStepEffs edge label with
    | Except.error e => Except.error (callEff :: e)
    | Except.ok le =>
      if canvas.requestSaveThrows then
        Except.error (callEff :: le ++ [EdgeEff.requestSave])
      else
        Except.ok (callEff :: le ++ [EdgeEff.requestSave, EdgeEff.consoleLog])

/-- Unique edge id generated by the fallback splice from the current
timestamp and a random suffix. -/
def fallbackEdgeId (now : Nat) (rand : String) : String :=
  "edge-" ++ (toString now ++ "-" ++ rand)

/-- Edge record synthesized by the fallback splice: generated id, the
two node ids, recomputed sides, and the label defaulted to the empty
string. -/
def fallbackEdgeRecord (fromNode toNode : CanvasNode) (label : Option String)
    (now : Nat) (rand : String) : EdgeRecord :=
  let sides := determineEdgeSides fromNode toNode
  { id := fallbackEdgeId now rand
  , fromNode := fromNode.id
  , fromSide := sides.1
  , toNode := toNode.id
  , toSide := sides.2
  , label := label.getD "" }

/-- Data package injected by the fallback splice: the snapshot nodes
unchanged and the snapshot edges (empty when absent) with the new record
appended. -/
def spliceData (fromNode toNode : CanvasNode) (label : Option String)
    (now : Nat) (rand : String) (data : CanvasData) : CanvasData :=
  { nodes := data.nodes
  , edges := some (data.edges.getD [] ++ [fallbackEdgeRecord fromNode toNode label now rand]) }

/-- Fallback splice path of createEdge (the body of the inner try): logs
the downgrade, generates an id, reads the snapshot via getData (throwing
a data error when it is unavailable), builds the new edge record and the
combined data, injects it via importData and requests a frame, logging
success.  The error component carries the effects performed before the
throw. -/
def fallbackSplicePath (canvas : EdgeCanvas) (fromNode toNode : CanvasNode)
    (label : Option String) (now : Nat) (rand : String) :
    Except (List EdgeEff) (List EdgeEff) :=
  match canvas.getDataResult with
  | none => Except.error [EdgeEff.consoleLog, EdgeEff.getData]
  | some none => Except.error [EdgeEff.consoleLog, EdgeEff.getData]
  | some (some data) =>
    let injected := spliceData fromNode toNode label now rand data
    if canvas.importDataThrows then
      Except.error [EdgeEff.consoleLog, EdgeEff.getData, EdgeEff.importData injected]
    else if canvas.requestFrameThrows then
      Except.error [EdgeEff.consoleLog, EdgeEff.getData, EdgeEff.importData injected,
        EdgeEff.requestFrame]
    else
      Except.ok [EdgeEff.consoleLog, EdgeEff.getData, EdgeEff.importData injected,
        EdgeEff.requestFrame, EdgeEff.consoleLog]

/-- Embedding of CanvasNodeManager.createEdge: tries the direct path;
on any throw logs the error and runs the fallback splice; on a throw
from the fallback logs the error and shows a user notice.  The overall
result is the Except embedding of the method, whose error component
would model an exception escaping to the caller. -/
def createEdge (canvas : EdgeCanvas) (fromNode toNode : CanvasNode) (label : Option String)
    (now : Nat) (rand : String) : Except (List EdgeEff) (List EdgeEff) :=
  match directEdgePath canvas fromNode toNode label with
  | Except.ok effs => Except.ok effs
  | Except.error effs1 =>
    match fallbackSplicePath canvas fromNode toNode label now rand with
    | Except.ok effs2 => Except.ok (effs1 ++ [EdgeEff.consoleError] ++ effs2)
    | Except.error effs2 =>
      Except.ok (effs1 ++ [EdgeEff.consoleError] ++ effs2 ++
        [EdgeEff.consoleError, EdgeEff.noticeShown "无法创建连接"])

/-- Test whether an effect is the construction of a taxonomy error. -/
def isTaxonomyReport (e : EdgeEff) : Bool :=
  match e with
  | EdgeEff.taxonomyErrorReport _ => true
  | _ => false

/-- Test whether an effect injects data into the host (the only way the
fallback path mutates the graph). -/
def isImportDataEff (e : EdgeEff) : Bool :=
  match e with
  | EdgeEff.importData _ => true
  | _ => false

/-- Test that a list of effects contains no taxonomy-error
construction. -/
def noTaxonomyIn (l : List EdgeEff) : Bool :=
  l.all fun e => !isTaxonomyReport e

/-- Test that a list of effects contains no data injection into the
host. -/
def noImportIn (l : List EdgeEff) : Bool :=
  l.all fun e => !isImportDataEff e

/-- Test that the Except embedding of a method call returned normally
instead of letting an exception escape to the caller. -/
def returnsNormally (r : Except (List EdgeEff) (List EdgeEff)) : Bool :=
  match r with
  | Except.ok _ => true
  | Except.error _ => false

/-- Concrete source node used on concrete createEdge runs. -/
def nodeN1 : CanvasNode :=
  { id := "n1", x := 0, y := 0, width := 100, height := 100 }

/-- Concrete target node placed below nodeN1. -/
def nodeN2 : CanvasNode :=
  { id := "n2", x := 0, y := 150, width := 100, height := 100 }

/-- Host behaviour where the direct edge primitive throws but the
snapshot is available and the fallback host calls succeed. -/
def spliceOkCanvas : EdgeCanvas :=
  { createEdgeResult := none
  , requestSaveThrows := false
  , getDataResult := some (some { nodes := [{ raw := "n1rec" }], edges := some [] })
  , importDataThrows := false
  , requestFrameThrows := false }

/-- Host behaviour where the direct edge primitive throws and getData
throws as well, so both tiers fail. -/
def bothFailCanvas : EdgeCanvas :=
  { createEdgeResult := none
  , requestSaveThrows := false
  , getDataResult := none
  , importDataThrows := false
  , requestFrameThrows := false }

/-- Effect trace of createEdge on bothFailCanvas with the two concrete
nodes. -/
def bothFailTrace : List EdgeEff :=
  [ EdgeEff.hostCreateEdge "n1" "n2" Side.bottom Side.top
  , EdgeEff.consoleError
  , EdgeEff.consoleLog
  , EdgeEff.getData
  , EdgeEff.consoleError
  , EdgeEff.noticeShown "无法创建连接" ]

/-- Host behaviour where the direct tier fails at requestSave and the
fallback tier fails on a falsy snapshot. -/
def directSaveFailCanvas : EdgeCanvas :=
  { createEdgeResult := some { id := "e9", hasSetText := false, setTextThrows := false }
  , requestSaveThrows := true
  , getDataResult := some none
  , importDataThrows := false
  , requestFrameThrows := false }

/-- Discriminator-less node holding both a text string and a url
string. -/
def textUrlNode : RawNode :=
  { type := none
  , text := some (JsField.str "note")
  , file := none
  , url := some (JsField.str "https://example.com") }

/-- Discriminator-less node holding both a text string and a file
string. -/
def textFileNode : RawNode :=
  { type := none
  , text := some (JsField.str "note")
  , file := some (JsField.str "a.md")
  , url := none }

/-- Node whose type discriminator is present but empty while its text
field is a string: the guards treat the empty discriminator as absent. -/
def emptyTypeTextNode : RawNode :=
  { type := some ""
  , text := some (JsField.str "hello")
  , file := none
  , url := none }

/-- C3: determineEdgeSides picks the anchor pair from the dominant axis:
with dx = toNode.x - fromNode.x and dy = toNode.y - fromNode.y, a
dx-dominant pair (|dx| > |dy|) connects right to left when dx > 0 and
left to right when dx < 0; ties and dy-dominant pairs connect bottom to
top when dy > 0 and top to bottom otherwise (so the dy = 0 tie case
deterministically yields top to bottom); the result is a function of the
two node positions only. -/
theorem determineEdgeSides_spec (f t : CanvasNode) (dx dy : Int)
    (hdx : dx = t.x - f.x) (hdy : dy = t.y - f.y) :
    (dx.natAbs > dy.natAbs →
      determineEdgeSides f t =
        if dx > 0 then (Side.right, Side.left) else (Side.left, Side.right))
    ∧ (dx.natAbs ≤ dy.natAbs →
      determineEdgeSides f t =
        if dy > 0 then (Side.bottom, Side.top) else (Side.top, Side.bottom)) := by
  subst hdx; subst hdy
  constructor
  · intro h
    simp only [determineEdgeSides, h, if_true, gt_iff_lt]
  · intro h
    simp only [determineEdgeSides, gt_iff_lt, Nat.not_lt.mpr h, if_false]

/-- Witness for C3: a concrete horizontal-dominant pair of nodes. -/
theorem determineEdgeSides_spec_witness :
    determineEdgeSides { id := "a", x := 0, y := 0, width := 10, height := 10 }
      { id := "b", x := 30, y := 10, width := 10, height := 10 } =
      (Side.right, Side.left) := by
  have h := (determineEdgeSides_spec
    { id := "a", x := 0, y := 0, width := 10, height := 10 }
    { id := "b", x := 30, y := 10, width := 10, height := 10 }
    30 10 (by decide) (by decide)).1 (by decide)
  simpa using h

/-- C5: calculateNodePosition returns exactly the trigger position plus
the offsets, with the trigger height added to y; it is a pure function,
and with a nonnegative y offset and positive node height the resulting
y lies strictly below the trigger y. -/
theorem calculateNodePosition_spec (n : CanvasNode) (ox oy : Int)
    (hoy : 0 ≤ oy) (hh : 0 < n.height) :
    (∀ (m : CanvasNode) (ox2 oy2 : Int),
      calculateNodePosition m ox2 oy2 =
        { x := m.x + ox2, y := m.y + m.height + oy2 })
    ∧ n.y < (calculateNodePosition n ox oy).y := by
  refine ⟨fun m ox2 oy2 => rfl, ?_⟩
  simp only [calculateNodePosition]
  omega

/-- Witness for C5: the documented scenario, trigger at (100, 100) with
height 100 and offset (0, 150) giving y = 350. -/
theorem calculateNodePosition_spec_witness :
    calculateNodePosition { id := "t", x := 100, y := 100, width := 200, height := 100 } 0 150 =
      { x := 100, y := 350 }
    ∧ (100 : Int) <
      (calculateNodePosition { id := "t", x := 100, y := 100, width := 200, height := 100 } 0 150).y := by
  have h := calculateNodePosition_spec
    { id := "t", x := 100, y := 100, width := 200, height := 100 } 0 150
    (by decide) (by decide)
  exact ⟨h.1 _ 0 150, h.2⟩

/-- C7: the retryable flag of every error-taxonomy instance matches the
taxonomy regardless of constructor arguments: NodeOperationError is
retryable, ContextExtractionError is not, CanvasNotAvailableError is
not. -/
theorem errorTaxonomy_retryable_spec :
    (∀ (op : NodeOperation) (msg nid det : Option String),
      (mkNodeOperationError op msg nid det).retryable = true)
    ∧ (∀ (st : ExtractionStage) (msg nid det : Option String),
      (mkContextExtractionError st msg nid det).retryable = false)
    ∧ (∀ (msg det : Option String),
      (mkCanvasNotAvailableError msg det).retryable = false) :=
  ⟨fun _ _ _ _ => rfl, fun _ _ _ _ => rfl, fun _ _ => rfl⟩

/-- C9: getActiveCanvas returns the active view exactly when it exists
and its type tag is the canvas tag, and null otherwise (including when
no view is active); the embedding is a total function, so no exception
is raised on any workspace state. -/
theorem getActiveCanvas_spec (ws : HostWorkspace) :
    (∀ v : HostView, getActiveCanvas ws = some v ↔
      ws.activeView = some v ∧ v.viewType = "canvas")
    ∧ (getActiveCanvas ws = none ↔
      ∀ v : HostView, ws.activeView = some v → v.viewType ≠ "canvas") := by
  rcases hav : ws.activeView with _ | v0
  · simp [getActiveCanvas, hav]
  · by_cases hc : v0.viewType = "canvas"
    · simp [getActiveCanvas, hav, isCanvasView, hc]
    · constructor
      · intro v
        simp [getActiveCanvas, hav, isCanvasView, hc]
        intro hv
        rw [← hv]
        exact hc
      · simp [getActiveCanvas, hav, isCanvasView, hc]

/-- C10: the structural-fallback guards are not mutually exclusive: a
discriminator-less node whose text and url fields are both strings
satisfies both the text guard and the link guard, and one whose text and
file fields are both strings satisfies both the text guard and the file
guard. -/
theorem guards_overlap_spec :
    RawNode.type textUrlNode = none
    ∧ isTextNode textUrlNode = true
    ∧ isLinkNode textUrlNode = true
    ∧ RawNode.type textFileNode = none
    ∧ isTextNode textFileNode = true
    ∧ isFileNode textFileNode = true := by
  decide

/-- C8 counterexample: a node whose type discriminator is present (the
empty string) and different from the text tag is still classified as a
text node by the structural fallback, because the guards test JavaScript
truthiness of the discriminator rather than its absence. -/
theorem guards_discriminator_counterexample :
    emptyTypeTextNode.type = some ""
    ∧ emptyTypeTextNode.type ≠ none
    ∧ emptyTypeTextNode.type ≠ some "text"
    ∧ isTextNode emptyTypeTextNode = true := by
  decide

/-- C8 amended: variant classification uses the discriminator first and
falls back to structural inspection exactly when the discriminator is
JavaScript-falsy (absent or the empty string): a node with a text, file,
link or group tag is classified as that variant regardless of other
fields; with a truthy discriminator a guard holds only for its own tag;
with a falsy discriminator a node is text iff its text field is a
string, file iff its file field is a string or an object bearing a
string path, link iff its url field is a string, and group iff it has
none of text, file and url. -/
theorem guards_classification_amended_spec (node : RawNode) :
    (node.type = some "text" → isTextNode node = true)
    ∧ (node.type = some "file" → isFileNode node = true)
    ∧ (node.type = some "link" → isLinkNode node = true)
    ∧ (node.type = some "group" → isGroupNode node = true)
    ∧ (typeFalsy node.type = false →
        ((isTextNode node = true ↔ node.type = some "text")
        ∧ (isFileNode node = true ↔ node.type = some "file")
        ∧ (isLinkNode node = true ↔ node.type = some "link")
        ∧ (isGroupNode node = true ↔ node.type = some "group")))
    ∧ (typeFalsy node.type = true →
        ((isTextNode node = true ↔ isStringField node.text = true)
        ∧ (isFileNode node = true ↔
            (isStringField node.file = true ∨ isObjWithPathField node.file = true))
        ∧ (isLinkNode node = true ↔ isStringField node.url = true)
        ∧ (isGroupNode node = true ↔
            (node.text = none ∧ node.file = none ∧ node.url = none)))) := by
  rcases node with ⟨ty, tx, fl, ur⟩
  rcases ty with _ | s
  · refine ⟨?_, ?_, ?_, ?_, ?_, ?_⟩ <;>
      simp [isTextNode, isFileNode, isLinkNode, isGroupNode, typeFalsy,
        Option.isNone_iff_eq_none, and_assoc]
  · by_cases hs : s = ""
    · subst hs
      refine ⟨?_, ?_, ?_, ?_, ?_, ?_⟩ <;>
        simp [isTextNode, isFileNode, isLinkNode, isGroupNode, typeFalsy,
          Option.isNone_iff_eq_none, and_assoc]
    · refine ⟨?_, ?_, ?_, ?_, ?_, ?_⟩ <;>
        simp [isTextNode, isFileNode, isLinkNode, isGroupNode, typeFalsy, hs]

/-- Witness for C8 amended: a concrete discriminator-less node with a
string text field is classified as a text node by the fallback. -/
theorem guards_classification_amended_spec_witness :
    isTextNode { type := none, text := some (JsField.str "x"), file := none, url := none } =
      true := by
  have h := (guards_classification_amended_spec
    { type := none, text := some (JsField.str "x"), file := none, url := none }).2.2.2.2.2
  exact (h (by decide)).1.mpr (by decide)

/-- C4: updateNodeContent sets the node text to the given content, via
the node setText capability when present and by direct field assignment
otherwise; whenever the canvas conforms to the declared interface (it
carries requestFrame) a render invalidation is triggered afterward; and
the host persistence primitive requestSave is never invoked by this
operation on any input. -/
theorem updateNodeContent_spec (canvas : UpdateCanvas) (node : TextNodeState) (content : String)
    (hframe : canvas.hasRequestFrame = true) :
    (updateNodeContent canvas node content).1.text = content
    ∧ (updateNodeContent canvas node content).2 =
        [if node.hasSetText then UpdateEff.setTextCall content
         else UpdateEff.directTextAssign content, UpdateEff.requestFrame]
    ∧ (∀ (c : UpdateCanvas) (n : TextNodeState) (s : String),
        UpdateEff.requestSave ∉ (updateNodeContent c n s).2) := by
  refine ⟨rfl, ?_, ?_⟩
  · simp [updateNodeContent, hframe]
  · intro c n s
    rcases hn : n.hasSetText <;> rcases hf : c.hasRequestFrame <;>
      simp [updateNodeContent, hn, hf]

/-- Witness for C4: a concrete node without setText updated on a
conforming canvas. -/
theorem updateNodeContent_spec_witness :
    (updateNodeContent { hasRequestFrame := true } { hasSetText := false, text := "old" }
      "new").1.text = "new"
    ∧ (updateNodeContent { hasRequestFrame := true } { hasSetText := false, text := "old" }
        "new").2 = [UpdateEff.directTextAssign "new", UpdateEff.requestFrame] := by
  have h := updateNodeContent_spec { hasRequestFrame := true }
    { hasSetText := false, text := "old" } "new" rfl
  exact ⟨h.1, by simpa using h.2.1⟩

/-- C6: createTextNode invokes the host node-creation primitive with
exactly the given position, size and text, with focus disabled and the
persistence-suppressing save flag set to false, and returns the node the
host produced unconditionally; the incompleteness diagnostic is logged
exactly when the returned entity lacks the getData capability, and even
then the node is still returned. -/
theorem createTextNode_spec (canvas : TextNodeCanvas) (content : String)
    (x y width height : Int) :
    (createTextNode canvas content x y width height).1 =
      canvas.createTextNodeImpl (mkNodeCreateOptions content x y width height)
    ∧ (createTextNode canvas content x y width height).2.head? =
      some (CreateEff.hostCreateTextNode (mkNodeCreateOptions content x y width height))
    ∧ (mkNodeCreateOptions content x y width height).posX = x
    ∧ (mkNodeCreateOptions content x y width height).posY = y
    ∧ (mkNodeCreateOptions content x y width height).sizeWidth = width
    ∧ (mkNodeCreateOptions content x y width height).sizeHeight = height
    ∧ (mkNodeCreateOptions content x y width height).text = content
    ∧ (mkNodeCreateOptions content x y width height).focus = false
    ∧ (mkNodeCreateOptions content x y width height).save = false
    ∧ (CreateEff.logIncompleteNodeDiagnostic ∈ (createTextNode canvas content x y width height).2
        ↔ (canvas.createTextNodeImpl (mkNodeCreateOptions content x y width height)).hasGetData =
          false) := by
  rcases hg : (canvas.createTextNodeImpl (mkNodeCreateOptions content x y width height)).hasGetData <;>
    refine ⟨?_, ?_, rfl, rfl, rfl, rfl, rfl, rfl, rfl, ?_⟩ <;>
    simp [createTextNode, hg]

/-- Helper: the label-setting step of the direct path produces one of
four explicit outcomes. -/
theorem labelStepEffs_shape (edge : EdgeObj) (label : Option String) :
    labelStepEffs edge label = Except.ok []
    ∨ (∃ l, labelStepEffs edge label = Except.error [EdgeEff.edgeSetText l])
    ∨ (∃ l, labelStepEffs edge label = Except.ok [EdgeEff.edgeSetText l])
    ∨ (∃ l, labelStepEffs edge label = Except.ok [EdgeEff.edgeLabelAssign l]) := by
  rcases label with _ | l
  · exact Or.inl rfl
  · by_cases h1 : l == ""
    · exact Or.inl (by simp [labelStepEffs, h1])
    · by_cases h2 : edge.hasSetText
      · by_cases h3 : edge.setTextThrows
        · exact Or.inr (Or.inl ⟨l, by simp [labelStepEffs, h1, h2, h3]⟩)
        · exact Or.inr (Or.inr (Or.inl ⟨l, by simp [labelStepEffs, h1, h2, h3]⟩))
      · exact Or.inr (Or.inr (Or.inr ⟨l, by simp [labelStepEffs, h1, h2]⟩))

/-- Helper: every effect list produced by the direct edge path, whether
it completes or throws, contains neither a taxonomy-error construction
nor a data injection. -/
theorem directEdgePath_effs_benign (canvas : EdgeCanvas) (f t : CanvasNode)
    (label : Option String) (e : List EdgeEff)
    (he : directEdgePath canvas f t label = Except.error e
      ∨ directEdgePath canvas f t label = Except.ok e) :
    noTaxonomyIn e = true ∧ noImportIn e = true := by
  rcases hce : canvas.createEdgeResult with _ | edge
  · simp [directEdgePath, hce] at he
    subst he
    exact ⟨by simp [noTaxonomyIn, isTaxonomyReport],
      by simp [noImportIn, isImportDataEff]⟩
  · rcases labelStepEffs_shape edge label with hsh | ⟨l, hsh⟩ | ⟨l, hsh⟩ | ⟨l, hsh⟩ <;>
      by_cases hrs : canvas.requestSaveThrows <;>
      simp [directEdgePath, hce, hsh, hrs] at he <;>
      subst he <;>
      exact ⟨by simp [noTaxonomyIn, isTaxonomyReport],
        by simp [noImportIn, isImportDataEff]⟩

/-- Helper: every effect list thrown by the fallback splice path
contains no taxonomy-error construction, and when the snapshot was
unavailable it contains no data injection either. -/
theorem fallbackSplicePath_error_effs (canvas : EdgeCanvas) (f t : CanvasNode)
    (label : Option String) (now : Nat) (rand : String) (e : List EdgeEff)
    (he : fallbackSplicePath canvas f t label now rand = Except.error e) :
    noTaxonomyIn e = true
    ∧ ((canvas.getDataResult = none ∨ canvas.getDataResult = some none) →
      noImportIn e = true) := by
  rcases hgd : canvas.getDataResult with _ | osd
  · simp [fallbackSplicePath, hgd] at he
    subst he
    exact ⟨by simp [noTaxonomyIn, isTaxonomyReport],
      fun _ => by simp [noImportIn, isImportDataEff]⟩
  · rcases osd with _ | data
    · simp [fallbackSplicePath, hgd] at he
      subst he
      exact ⟨by simp [noTaxonomyIn, isTaxonomyReport],
        fun _ => by simp [noImportIn, isImportDataEff]⟩
    · by_cases himp : canvas.importDataThrows
      · simp [fallbackSplicePath, hgd, himp] at he
        subst he
        refine ⟨by simp [noTaxonomyIn, isTaxonomyReport], ?_⟩
        intro hna
        rcases hna with hna | hna <;> simp [hgd] at hna
      · by_cases hfr : canvas.requestFrameThrows
        · simp [fallbackSplicePath, hgd, himp, hfr] at he
          subst he
          refine ⟨by simp [noTaxonomyIn, isTaxonomyReport], ?_⟩
          intro hna
          rcases hna with hna | hna <;> simp [hgd] at hna
        · simp [fallbackSplicePath, hgd, himp, hfr] at he

/-- C1: when the direct edge-creation path throws and the graph data
snapshot is available (and the fallback host calls complete), the
fallback splice runs: the data injected back into the host carries the
snapshot nodes unchanged and the snapshot edges with exactly one new
record appended, whose id is the generated edge- prefixed id and whose
fromNode and toNode are the two given node ids, and afterwards a render
invalidation (requestFrame) is requested while the fallback performs no
persistence request (requestSave). -/
theorem createEdge_fallback_splice_spec (canvas : EdgeCanvas) (fromNode toNode : CanvasNode)
    (label : Option String) (now : Nat) (rand : String) (e1 : List EdgeEff) (data : CanvasData)
    (hdirect : directEdgePath canvas fromNode toNode label = Except.error e1)
    (hdata : canvas.getDataResult = some (some data))
    (himp : canvas.importDataThrows = false)
    (hframe : canvas.requestFrameThrows = false) :
    createEdge canvas fromNode toNode label now rand =
      Except.ok (e1 ++ [EdgeEff.consoleError] ++
        [EdgeEff.consoleLog, EdgeEff.getData,
         EdgeEff.importData (spliceData fromNode toNode label now rand data),
         EdgeEff.requestFrame, EdgeEff.consoleLog])
    ∧ (spliceData fromNode toNode label now rand data).nodes = data.nodes
    ∧ (spliceData fromNode toNode label now rand data).edges =
        some (data.edges.getD [] ++ [fallbackEdgeRecord fromNode toNode label now rand])
    ∧ (fallbackEdgeRecord fromNode toNode label now rand).fromNode = fromNode.id
    ∧ (fallbackEdgeRecord fromNode toNode label now rand).toNode = toNode.id
    ∧ (fallbackEdgeRecord fromNode toNode label now rand).id =
        "edge-" ++ (toString now ++ "-" ++ rand)
    ∧ EdgeEff.requestSave ∉
        [EdgeEff.consoleLog, EdgeEff.getData,
         EdgeEff.importData (spliceData fromNode toNode label now rand data),
         EdgeEff.requestFrame, EdgeEff.consoleLog] := by
  refine ⟨?_, rfl, rfl, rfl, rfl, rfl, ?_⟩
  · simp [createEdge, hdirect, fallbackSplicePath, hdata, himp, hframe]
  · simp

/-- Witness for C1: a concrete run in which the direct primitive throws
and the splice succeeds, with the full resulting effect trace. -/
theorem createEdge_fallback_splice_spec_witness :
    createEdge spliceOkCanvas nodeN1 nodeN2 none 5 "r9" =
      Except.ok
        [ EdgeEff.hostCreateEdge "n1" "n2" Side.bottom Side.top
        , EdgeEff.consoleError
        , EdgeEff.consoleLog
        , EdgeEff.getData
        , EdgeEff.importData
            { nodes := [{ raw := "n1rec" }]
            , edges := some
                [ { id := "edge-5-r9"
                  , fromNode := "n1"
                  , fromSide := Side.bottom
                  , toNode := "n2"
                  , toSide := Side.top
                  , label := "" } ] }
        , EdgeEff.requestFrame
        , EdgeEff.consoleLog ] := by
  have h := createEdge_fallback_splice_spec spliceOkCanvas nodeN1 nodeN2 none 5 "r9"
    [EdgeEff.hostCreateEdge "n1" "n2" Side.bottom Side.top]
    { nodes := [{ raw := "n1rec" }], edges := some [] } rfl rfl rfl rfl
  exact h.1

/-- C2 counterexample: on a run in which both the direct path and the
fallback fail, createEdge returns normally with a trace that shows the
failure report is a user-facing notice and that no error of the taxonomy
(no NodeOperationError) is constructed, contradicting the claim that the
failure is reported via the error taxonomy. -/
theorem createEdge_taxonomy_counterexample :
    createEdge bothFailCanvas nodeN1 nodeN2 none 0 "r" = Except.ok bothFailTrace
    ∧ noTaxonomyIn bothFailTrace = true
    ∧ bothFailTrace.contains (EdgeEff.noticeShown "无法创建连接") = true := by
  refine ⟨rfl, by decide, by decide⟩

/-- C2 amended: createEdge never lets an exception escape to its caller
on any input; when both the direct path and the fallback fail it reports
the failure through a user-facing notice rather than through the error
taxonomy (no taxonomy error is constructed anywhere in the trace), and
when the fallback failed because the snapshot was unavailable no data
was injected, leaving the graph without a partial edge record. -/
theorem createEdge_never_throws_amended_spec (canvas : EdgeCanvas) (fromNode toNode : CanvasNode)
    (label : Option String) (now : Nat) (rand : String) (e1 e2 : List EdgeEff)
    (hdirect : directEdgePath canvas fromNode toNode label = Except.error e1)
    (hfall : fallbackSplicePath canvas fromNode toNode label now rand = Except.error e2) :
    (∀ (c : EdgeCanvas) (f t : CanvasNode) (l : Option String) (n : Nat) (r : String),
      returnsNormally (createEdge c f t l n r) = true)
    ∧ createEdge canvas fromNode toNode label now rand =
        Except.ok (e1 ++ [EdgeEff.consoleError] ++ e2 ++
          [EdgeEff.consoleError, EdgeEff.noticeShown "无法创建连接"])
    ∧ noTaxonomyIn (e1 ++ [EdgeEff.consoleError] ++ e2 ++
        [EdgeEff.consoleError, EdgeEff.noticeShown "无法创建连接"]) = true
    ∧ ((canvas.getDataResult = none ∨ canvas.getDataResult = some none) →
        noImportIn (e1 ++ [EdgeEff.consoleError] ++ e2 ++
          [EdgeEff.consoleError, EdgeEff.noticeShown "无法创建连接"]) = true) := by
  have hb := directEdgePath_effs_benign canvas fromNode toNode label e1 (Or.inl hdirect)
  have hf2 := fallbackSplicePath_error_effs canvas fromNode toNode label now rand e2 hfall
  refine ⟨?_, ?_, ?_, ?_⟩
  · intro c f t l n r
    cases hd : directEdgePath c f t l with
    | ok e => simp [createEdge, returnsNormally, hd]
    | error e =>
      cases hfb : fallbackSplicePath c f t l n r with
      | ok e2b => simp [createEdge, returnsNormally, hd, hfb]
      | error e2b => simp [createEdge, returnsNormally, hd, hfb]
  · simp [createEdge, hdirect, hfall]
  · have h1 := hb.1
    have h2 := hf2.1
    simp only [noTaxonomyIn, List.all_eq_true] at h1 h2 ⊢
    intro x hx
    rcases List.mem_append.mp hx with hx1 | hx2
    · rcases List.mem_append.mp hx1 with hx3 | hx4
      · rcases List.mem_append.mp hx3 with hx5 | hx6
        · exact h1 x hx5
        · simp only [List.mem_singleton] at hx6
          subst hx6
          decide
      · exact h2 x hx4
    · rcases List.mem_cons.mp hx2 with hx5 | hx6
      · subst hx5
        decide
      · simp only [List.mem_singleton] at hx6
        subst hx6
        decide
  · intro hna
    have h1 := hb.2
    have h2 := hf2.2 hna
    simp only [noImportIn, List.all_eq_true] at h1 h2 ⊢
    intro x hx
    rcases List.mem_append.mp hx with hx1 | hx2
    · rcases List.mem_append.mp hx1 with hx3 | hx4
      · rcases List.mem_append.mp hx3 with hx5 | hx6
        · exact h1 x hx5
        · simp only [List.mem_singleton] at hx6
          subst hx6
          decide
      · exact h2 x hx4
    · rcases List.mem_cons.mp hx2 with hx5 | hx6
      · subst hx5
        decide
      · simp only [List.mem_singleton] at hx6
        subst hx6
        decide

/-- Witness for C2 amended: a concrete run in which the direct tier
fails at requestSave and the fallback tier fails on a falsy snapshot,
and createEdge still returns normally. -/
theorem createEdge_never_throws_amended_spec_witness :
    returnsNormally (createEdge directSaveFailCanvas nodeN1 nodeN2 none 1 "z") = true := by
  have h := createEdge_never_throws_amended_spec directSaveFailCanvas nodeN1 nodeN2 none 1 "z"
    [EdgeEff.hostCreateEdge "n1" "n2" Side.bottom Side.top, EdgeEff.requestSave]
    [EdgeEff.consoleLog, EdgeEff.getData] rfl rfl
  exact h.1 directSaveFailCanvas nodeN1 nodeN2 none 1 "z"

end ContextPilot
